import Mathlib

/-!
Verification of the movie-chat orchestration layer (`src/app/actions.tsx`).

The repository is a thin orchestration loop: `sendMessage` appends the user
message to a mutable conversation log, calls a completion oracle with a fixed
system instruction prepended to the full log, and either streams back text or
dispatches to one of four tool generators (`get_movie_info`, `get_movie_cast`,
`search_movie_title`, `filter_movies`).  Each generator yields one loading
renderable, performs one HTTP fetch, and on success commits a bracketed
summary message to the log before returning a terminal renderable.

The embedding below is a shallow one: the decision of the oracle and the upstream
HTTP response are inputs; React nodes become a small `Renderable` inductive;
the mutable history becomes explicit list passing.  JSON movie records are
modelled with the exact field names the code reads (both `Title` and `title`
appear in the source).  Numeric JSON fields are modelled as the strings they
render to, except the filter parameters, which are modelled as integers since
the code only ever stringifies them into a query string.  The artificial
`sleep(1000)` pacing delay and the stream-chunk granularity of the text path
are not modelled (they do not affect any stated property).
-/

namespace MovieAI

/-- Roles of conversation messages, from the `AIState` type in the source. -/
inductive Role where
  | user
  | assistant
  | system
deriving DecidableEq, Repr

/-- The four registered tool names, from the `AIState.name` union type. -/
inductive ToolName where
  | get_movie_info
  | get_movie_cast
  | search_movie_title
  | filter_movies
deriving DecidableEq, Repr

/-- A conversation-store entry: `{id?, name?, role, content}` from `AIState`. -/
structure Message where
  id : Option Nat := none
  name : Option ToolName := none
  role : Role
  content : String
deriving DecidableEq, Repr

/-- A movie record as consumed by the code.  The source reads both `Title`
(capitalised, used in summaries, cast and filter rendering) and `title`
(lower-case, used in the info heading and search rendering), plus `overview`,
`release_date`, `vote_average`, `Actors`, `id`, `imdbID` and `Year`.  Fields
are modelled as the strings they are rendered to. -/
structure Movie where
  Title : String := ""
  title : String := ""
  overview : String := ""
  release_date : String := ""
  vote_average : String := ""
  Actors : String := ""
  id : String := ""
  imdbID : String := ""
  Year : String := ""
deriving DecidableEq, Repr

/-- Rendered UI fragments (the shallow image of the JSX the code returns). -/
inductive Renderable where
  | spinner
  | div (text : String)
  | movieInfo (title overview release_date vote_average : String)
  | castView (title castText : String)
  | searchResults (title : String) (items : List (String × String))
  | filterResults (items : List (String × String))
deriving DecidableEq, Repr

/-- Outcome classification of one turn: `completed` when the closing
assistant/summary entry was committed, `lookupFailed` when the fetch returned
a non-success status (no commit), `crashed` when the generator dereferences
`movie[0]` of an empty success body (a thrown TypeError: no terminal value,
no commit). -/
inductive TurnStatus where
  | completed
  | lookupFailed
  | crashed
deriving DecidableEq, Repr

/-- Result of running one tool generator to the end: the fetched URL, the
sequence of intermediate `yield`ed renderables, the terminal renderable
(`none` when the generator throws), and the conversation store after the
run. -/
structure GenResult where
  url : String
  yields : List Renderable
  terminal : Option Renderable
  history : List Message
  status : TurnStatus
deriving DecidableEq, Repr

/-- JavaScript `String.prototype.split` with a non-empty string separator,
fuel-driven so that it computes by structural recursion. -/
def splitFuel (sep : List Char) : Nat → List Char → List Char → List (List Char)
  | 0, acc, s => [acc.reverse ++ s]
  | _ + 1, acc, [] => [acc.reverse]
  | fuel + 1, acc, c :: rest =>
    if sep.isPrefixOf (c :: rest) then
      acc.reverse :: splitFuel sep fuel [] ((c :: rest).drop sep.length)
    else
      splitFuel sep fuel (c :: acc) rest

/-- JavaScript `s.split(sep)` for a non-empty separator `sep`. -/
def jsSplit (sep s : String) : List String :=
  (splitFuel sep.toList (s.toList.length + 1) [] s.toList).map fun l => String.mk l

/-- The generator of the `get_movie_info` tool (fetch by IMDb id; on success,
commit `[Information about <Title>]` and render title/overview/release
date/rating). -/
def get_movie_info_generate (imdbId : String) (resp : Option (List Movie))
    (history : List Message) : GenResult :=
  let url := "https://moviedatabase8.p.rapidapi.com/FindByImbdId/" ++ imdbId
  let yields := [Renderable.div "Loading movie information..."]
  match resp with
  | none =>
    { url := url, yields := yields, terminal := some (.div "Movie not found!"),
      history := history, status := .lookupFailed }
  | some [] =>
    { url := url, yields := yields, terminal := none,
      history := history, status := .crashed }
  | some (m0 :: _) =>
    { url := url, yields := yields,
      terminal := some (.movieInfo m0.title m0.overview m0.release_date m0.vote_average),
      history := history ++
        [{ name := some .get_movie_info, role := .assistant,
           content := "[Information about " ++ m0.Title ++ "]" }],
      status := .completed }

/-- The generator of the `get_movie_cast` tool (fetch by IMDb id; on success,
split the delimited `Actors` string on `", "`, commit `[Cast of <Title>]` and
render the names joined with `", "`). -/
def get_movie_cast_generate (imdbId : String) (resp : Option (List Movie))
    (history : List Message) : GenResult :=
  let url := "https://moviedatabase8.p.rapidapi.com/FindByImbdId/" ++ imdbId
  let yields := [Renderable.div "Loading movie cast..."]
  match resp with
  | none =>
    { url := url, yields := yields, terminal := some (.div "Cast not found!"),
      history := history, status := .lookupFailed }
  | some [] =>
    { url := url, yields := yields, terminal := none,
      history := history, status := .crashed }
  | some (m0 :: _) =>
    let cast := jsSplit ", " m0.Actors
    { url := url, yields := yields,
      terminal := some (.castView m0.Title (String.intercalate ", " cast)),
      history := history ++
        [{ name := some .get_movie_cast, role := .assistant,
           content := "[Cast of " ++ m0.Title ++ "]" }],
      status := .completed }

/-- The generator of the `search_movie_title` tool (fetch by title substring;
on success, commit `[Movies matching "<title>"]` and render one list item per
result, keyed by `id`, showing `title`). -/
def search_movie_title_generate (title : String) (resp : Option (List Movie))
    (history : List Message) : GenResult :=
  let url := "https://moviedatabase8.p.rapidapi.com/Search/" ++ title
  let yields := [Renderable.div "Searching for movies..."]
  match resp with
  | none =>
    { url := url, yields := yields, terminal := some (.div "No movies found!"),
      history := history, status := .lookupFailed }
  | some movies =>
    { url := url, yields := yields,
      terminal := some (.searchResults title (movies.map fun mv => (mv.id, mv.title))),
      history := history ++
        [{ name := some .search_movie_title, role := .assistant,
           content := "[Movies matching \"" ++ title ++ "\"]" }],
      status := .completed }

/-- The validated parameter bag of the `filter_movies` tool: twelve optional
fields, in the declaration order of its zod schema.  The numeric fields are
modelled as integers (the code only ever stringifies them into the query). -/
structure FilterParams where
  MinRating : Option Int := none
  MaxRating : Option Int := none
  MinYear : Option Int := none
  MaxYear : Option Int := none
  MinRevenue : Option Int := none
  MaxRevenue : Option Int := none
  Genre : Option String := none
  MinRuntime : Option Int := none
  MaxRuntime : Option Int := none
  OriginalLanguage : Option String := none
  SpokenLanguage : Option String := none
  Limit : Option Int := none
deriving DecidableEq, Repr

/-- UTF-8 byte sequence of a code point, for percent-encoding. -/
def utf8Bytes (n : Nat) : List Nat :=
  if n < 128 then [n]
  else if n < 2048 then [192 + n / 64, 128 + n % 64]
  else if n < 65536 then [224 + n / 4096, 128 + n / 64 % 64, 128 + n % 64]
  else [240 + n / 262144, 128 + n / 4096 % 64, 128 + n / 64 % 64, 128 + n % 64]

/-- Upper-case hexadecimal digit of a value below 16. -/
def hexDigit (n : Nat) : Char :=
  Char.ofNat (if n < 10 then 48 + n else 55 + n)

/-- Percent-encoding `%XX` of one byte. -/
def percentByte (b : Nat) : String :=
  String.mk [Char.ofNat 37, hexDigit (b / 16), hexDigit (b % 16)]

/-- One character under `application/x-www-form-urlencoded` encoding, as
`URLSearchParams.toString` produces it: space becomes `+`, ASCII
alphanumerics and `*`, `-`, `.`, `_` pass through, everything else is
percent-encoded byte-wise. -/
def formEncodeChar (c : Char) : String :=
  if c.toNat = 32 then "+"
  else if c.isAlphanum ∨ c.toNat = 42 ∨ c.toNat = 45 ∨ c.toNat = 46 ∨ c.toNat = 95 then
    String.singleton c
  else
    String.join ((utf8Bytes c.toNat).map percentByte)

/-- Form-urlencoded encoding of a whole string. -/
def formEncode (s : String) : String :=
  String.join (s.toList.map formEncodeChar)

/-- Key/value contribution of one optional numeric field to
`new URLSearchParams(params)`: absent fields contribute nothing, present ones
one stringified pair. -/
def optNumPair (k : String) : Option Int → List (String × String)
  | none => []
  | some v => [(k, toString v)]

/-- Key/value contribution of one optional string field. -/
def optStrPair (k : String) : Option String → List (String × String)
  | none => []
  | some v => [(k, v)]

/-- The ordered key/value pairs `new URLSearchParams(params)` holds for a
validated `filter_movies` parameter bag: exactly the present fields, in
schema declaration order. -/
def filterParamsPairs (p : FilterParams) : List (String × String) :=
  optNumPair "MinRating" p.MinRating ++ optNumPair "MaxRating" p.MaxRating ++
  optNumPair "MinYear" p.MinYear ++ optNumPair "MaxYear" p.MaxYear ++
  optNumPair "MinRevenue" p.MinRevenue ++ optNumPair "MaxRevenue" p.MaxRevenue ++
  optStrPair "Genre" p.Genre ++ optNumPair "MinRuntime" p.MinRuntime ++
  optNumPair "MaxRuntime" p.MaxRuntime ++
  optStrPair "OriginalLanguage" p.OriginalLanguage ++
  optStrPair "SpokenLanguage" p.SpokenLanguage ++ optNumPair "Limit" p.Limit

/-- Serialization `URLSearchParams.prototype.toString`: form-encoded `k=v` pairs joined
with `&`. -/
def urlSearchParamsString (pairs : List (String × String)) : String :=
  String.intercalate "&" (pairs.map fun kv => formEncode kv.1 ++ "=" ++ formEncode kv.2)

/-- The query string `filter_movies` sends: `new URLSearchParams(params).toString()`. -/
def filterQuery (p : FilterParams) : String :=
  urlSearchParamsString (filterParamsPairs p)

/-- The generator of the `filter_movies` tool (fetch `/Filter?<query>`; on
success, commit the constant summary `[Movies matching criteria]` and render
one list item per result, keyed by `imdbID`, showing `Title (Year)`). -/
def filter_movies_generate (params : FilterParams) (resp : Option (List Movie))
    (history : List Message) : GenResult :=
  let url := "https://moviedatabase8.p.rapidapi.com/Filter?" ++ filterQuery params
  let yields := [Renderable.div "Filtering movies..."]
  match resp with
  | none =>
    { url := url, yields := yields,
      terminal := some (.div "No movies found with the specified criteria!"),
      history := history, status := .lookupFailed }
  | some movies =>
    { url := url, yields := yields,
      terminal := some (.filterResults
        (movies.map fun mv => (mv.imdbID, mv.Title ++ " (" ++ mv.Year ++ ")"))),
      history := history ++
        [{ name := some .filter_movies, role := .assistant,
           content := "[Movies matching criteria]" }],
      status := .completed }

/-- A tool invocation selected by the oracle: one tool name together with its
validated parameter bag. -/
inductive ToolCall where
  | get_movie_info (imdbId : String)
  | get_movie_cast (imdbId : String)
  | search_movie_title (title : String)
  | filter_movies (params : FilterParams)
deriving DecidableEq, Repr

/-- Dispatch of a tool call to the matching generator (the `tools` record
passed to `streamUI`). -/
def runTool : ToolCall → Option (List Movie) → List Message → GenResult
  | .get_movie_info imdbId, resp, h => get_movie_info_generate imdbId resp h
  | .get_movie_cast imdbId, resp, h => get_movie_cast_generate imdbId resp h
  | .search_movie_title title, resp, h => search_movie_title_generate title resp h
  | .filter_movies params, resp, h => filter_movies_generate params resp h

/-- The decision of the oracle for one turn: stream plain text (given here as the
completed text) or invoke exactly one tool. -/
inductive Decision where
  | text (content : String)
  | tool (call : ToolCall)
deriving DecidableEq, Repr

/-- The fixed system instruction (the `content` template literal), verbatim. -/
def content : String :=
  "You are a movie bot and you can help users get information about movies.\n\n" ++
  "Messages inside [] means that it\x27s a UI element or a user event. For example:\n" ++
  "- \"[Information about Inception]\" means that the interface of the movie " ++
  "information about Inception is shown to the user.\n\n" ++
  "If the user wants information about a movie, call `get_movie_info` to show the information.\n" ++
  "If the user wants the cast of a movie, call `get_movie_cast` to show the cast.\n" ++
  "If the user wants to search for movies by title, call `search_movie_title`.\n" ++
  "If the user wants to filter movies by criteria, call `filter_movies`.\n" ++
  "If the user wants to do anything else, it is an impossible task, so you should " ++
  "respond that you are a demo and cannot do that.\n\n" ++
  "Besides getting information about movies, you can also chat with users.\n"

/-- The system message prepended to every oracle request. -/
def systemMessage : Message :=
  { role := .system, content := content }

/-- The user entry `sendMessage` appends for its input string. -/
def userMessage (s : String) : Message :=
  { role := .user, content := s }

/-- Result of one `sendMessage` turn: the oracle request actually sent, the
conversation store afterwards, the status of the turn, and the renderables the
caller observes (the initial spinner, any generator yields, and the terminal
value if one was produced). -/
structure SendResult where
  request : List Message
  history : List Message
  status : TurnStatus
  yields : List Renderable
  terminal : Option Renderable
deriving DecidableEq, Repr

/-- The orchestrator `sendMessage`: append the user entry, build the oracle
request as the system instruction followed by the full store, then follow the
decision of the oracle — the text path commits the completed assistant text, the
tool path runs the matching generator (which commits its own summary on
success). -/
def sendMessage (message : String) (decision : Decision)
    (resp : Option (List Movie)) (history : List Message) : SendResult :=
  let h1 := history ++ [userMessage message]
  let request := systemMessage :: h1
  match decision with
  | .text t =>
    { request := request,
      history := h1 ++ [{ role := .assistant, content := t }],
      status := .completed, yields := [.spinner], terminal := some (.div t) }
  | .tool call =>
    let r := runTool call resp h1
    { request := request, history := r.history, status := r.status,
      yields := .spinner :: r.yields, terminal := r.terminal }

/-- Loading text each generator yields first, per tool. -/
def loadingText : ToolCall → String
  | .get_movie_info _ => "Loading movie information..."
  | .get_movie_cast _ => "Loading movie cast..."
  | .search_movie_title _ => "Searching for movies..."
  | .filter_movies _ => "Filtering movies..."

/-- Not-found text each generator returns on a non-success response, per tool. -/
def notFoundText : ToolCall → String
  | .get_movie_info _ => "Movie not found!"
  | .get_movie_cast _ => "Cast not found!"
  | .search_movie_title _ => "No movies found!"
  | .filter_movies _ => "No movies found with the specified criteria!"

/-- Whether an upstream response satisfies the provider contract the code
relies on: the by-id operations (`get_movie_info`, `get_movie_cast`) parse
their success body as a single movie record, so a success body must be a
non-empty array; the list operations accept any array. -/
def wellFormedResp : ToolCall → Option (List Movie) → Bool
  | .get_movie_info _, some b => !b.isEmpty
  | .get_movie_cast _, some b => !b.isEmpty
  | _, _ => true

/-- A generator either leaves the store untouched or appends exactly one
assistant-role summary entry. -/
theorem runTool_history_shape (call : ToolCall) (resp : Option (List Movie))
    (h : List Message) :
    (runTool call resp h).history = h ∨
      ∃ x, (runTool call resp h).history = h ++ [x] ∧ x.role = Role.assistant := by
  cases call <;> rcases resp with _ | (_ | ⟨m0, rest⟩) <;>
    first
      | exact Or.inl rfl
      | exact Or.inr ⟨_, rfl, rfl⟩

/-- Key membership for the numeric-field contribution to the query pairs. -/
theorem mem_optNumPair_keys {k : String} (k2 : String) (v : Option Int) :
    k ∈ (optNumPair k2 v).map Prod.fst ↔ k = k2 ∧ v.isSome = true := by
  cases v <;> simp [optNumPair]

/-- Key membership for the string-field contribution to the query pairs. -/
theorem mem_optStrPair_keys {k : String} (k2 : String) (v : Option String) :
    k ∈ (optStrPair k2 v).map Prod.fst ↔ k = k2 ∧ v.isSome = true := by
  cases v <;> simp [optStrPair]

/-- C1: for every sequence of turns (i.e. from an arbitrary previous store),
a successfully completed turn leaves the Conversation Store with length equal
to the previous length plus 2 (the appended user entry plus the committed
assistant or tool-summary entry), and a turn whose tool lookup failed leaves
it with length equal to the previous length plus 1 (the user entry only). -/
theorem conversation_store_turn_length (msg : String) (d : Decision)
    (resp : Option (List Movie)) (h : List Message) :
    ((sendMessage msg d resp h).status = TurnStatus.completed →
      (sendMessage msg d resp h).history.length = h.length + 2) ∧
    ((sendMessage msg d resp h).status = TurnStatus.lookupFailed →
      (sendMessage msg d resp h).history.length = h.length + 1) := by
  cases d with
  | text t => simp [sendMessage]
  | tool call =>
    cases call <;> rcases resp with _ | (_ | ⟨m0, rest⟩) <;>
      simp [sendMessage, runTool, get_movie_info_generate, get_movie_cast_generate,
        search_movie_title_generate, filter_movies_generate]

/-- Witness for C1: a completed text turn from the empty store has length 2,
and a failed title-search lookup from the empty store has length 1. -/
theorem conversation_store_turn_length_witness :
    ((sendMessage "hi" (.text "hello") none []).status = TurnStatus.completed ∧
      (sendMessage "hi" (.text "hello") none []).history.length = 2) ∧
    ((sendMessage "find movies called Inception"
        (.tool (.search_movie_title "Inception")) none []).status
        = TurnStatus.lookupFailed ∧
      (sendMessage "find movies called Inception"
        (.tool (.search_movie_title "Inception")) none []).history.length = 1) :=
  ⟨⟨rfl, (conversation_store_turn_length "hi" (.text "hello") none []).1 rfl⟩,
    ⟨rfl, (conversation_store_turn_length "find movies called Inception"
      (.tool (.search_movie_title "Inception")) none []).2 rfl⟩⟩

/-- C2: for every Lookup Executor and a non-success upstream response, the
generator produces the terminal not-found renderable of its tool and leaves
the Conversation Store untouched; through `sendMessage`, the store holds
nothing beyond the already-appended user entry. -/
theorem failed_lookup_terminal_and_store (call : ToolCall) (msg : String)
    (h : List Message) :
    (runTool call none h).terminal = some (.div (notFoundText call)) ∧
    (runTool call none h).history = h ∧
    (sendMessage msg (.tool call) none h).history = h ++ [userMessage msg] := by
  cases call <;>
    simp [sendMessage, runTool, get_movie_info_generate, get_movie_cast_generate,
      search_movie_title_generate, filter_movies_generate, notFoundText]

/-- C3: a successful movie-info turn commits exactly one assistant summary
whose content is the bracketed `[Information about <Title>]` built from the
Title field of the first record, and its terminal renderable shows the
title, overview, release date and rating fields of that record; instantiated
at a record titled Inception the summary is `[Information about Inception]`. -/
theorem movie_info_success_summary_and_render (imdbId : String) (m : Movie)
    (rest : List Movie) (h : List Message) :
    (get_movie_info_generate imdbId (some (m :: rest)) h).history
      = h ++ [{ name := some .get_movie_info, role := .assistant,
                content := "[Information about " ++ m.Title ++ "]" }] ∧
    (get_movie_info_generate imdbId (some (m :: rest)) h).terminal
      = some (.movieInfo m.title m.overview m.release_date m.vote_average) ∧
    (get_movie_info_generate "tt1375666"
        (some [{ Title := "Inception" }]) h).history
      = h ++ [{ name := some .get_movie_info, role := .assistant,
                content := "[Information about Inception]" }] :=
  ⟨rfl, rfl, rfl⟩

/-- C4: every oracle request is the fixed system instruction followed by the
full Conversation Store contents (the prior store plus the appended user
entry, untruncated), and the system message is never committed into the
mutable history: a store free of system-role entries stays free of them. -/
theorem oracle_request_shape_and_no_system_persisted (msg : String)
    (d : Decision) (resp : Option (List Movie)) (h : List Message)
    (hsys : ∀ m ∈ h, m.role ≠ Role.system) :
    (sendMessage msg d resp h).request
      = systemMessage :: (h ++ [userMessage msg]) ∧
    ∀ m ∈ (sendMessage msg d resp h).history, m.role ≠ Role.system := by
  have huser : ∀ m ∈ h ++ [userMessage msg], m.role ≠ Role.system := by
    intro m hm
    rcases List.mem_append.mp hm with hh | hu
    · exact hsys m hh
    · rcases List.mem_singleton.mp hu with rfl
      simp [userMessage]
  cases d with
  | text t =>
    refine ⟨rfl, ?_⟩
    intro m hm
    rcases List.mem_append.mp hm with hh | ha
    · exact huser m hh
    · rcases List.mem_singleton.mp ha with rfl
      simp
  | tool call =>
    refine ⟨rfl, ?_⟩
    intro m hm
    rcases runTool_history_shape call resp (h ++ [userMessage msg]) with hsame | ⟨x, hx, hrole⟩
    · rw [show (sendMessage msg (.tool call) resp h).history
          = (runTool call resp (h ++ [userMessage msg])).history from rfl, hsame] at hm
      exact huser m hm
    · rw [show (sendMessage msg (.tool call) resp h).history
          = (runTool call resp (h ++ [userMessage msg])).history from rfl, hx] at hm
      rcases List.mem_append.mp hm with hh | ha
      · exact huser m hh
      · rcases List.mem_singleton.mp ha with rfl
        rw [hrole]
        intro hcontra
        exact Role.noConfusion hcontra

/-- Witness for C4: from the empty store, the request for the text turn is
the system message followed by the single user entry, and the resulting
store holds no system-role entry. -/
theorem oracle_request_shape_witness :
    (∀ m ∈ ([] : List Message), m.role ≠ Role.system) ∧
    (sendMessage "hi" (.text "hello") none []).request
      = systemMessage :: [userMessage "hi"] ∧
    ∀ m ∈ (sendMessage "hi" (.text "hello") none []).history,
      m.role ≠ Role.system := by
  have h := oracle_request_shape_and_no_system_persisted "hi" (.text "hello")
    none [] (by simp)
  exact ⟨by simp, h.1, h.2⟩

/-- C5: for every Lookup Executor, under the provider contract (success
bodies of the by-id tools parse to at least one record), the produced
sequence of renderables is exactly one in-progress loading value followed by
exactly one terminal value, on the success and on the failure path alike. -/
theorem executor_yield_terminal_shape (call : ToolCall)
    (resp : Option (List Movie)) (h : List Message)
    (hwf : wellFormedResp call resp = true) :
    (runTool call resp h).yields = [Renderable.div (loadingText call)] ∧
    (runTool call resp h).terminal.isSome = true := by
  cases call <;> rcases resp with _ | (_ | ⟨m0, rest⟩) <;>
    simp_all [wellFormedResp, runTool, get_movie_info_generate,
      get_movie_cast_generate, search_movie_title_generate,
      filter_movies_generate, loadingText]

/-- Witness for C5: a movie-info success with a one-record body yields the
loading renderable then a terminal value. -/
theorem executor_yield_terminal_shape_witness :
    wellFormedResp (.get_movie_info "tt1375666")
        (some [{ Title := "Inception" }]) = true ∧
    (runTool (.get_movie_info "tt1375666")
        (some [{ Title := "Inception" }]) []).yields
      = [Renderable.div "Loading movie information..."] ∧
    (runTool (.get_movie_info "tt1375666")
        (some [{ Title := "Inception" }]) []).terminal.isSome = true := by
  have h := executor_yield_terminal_shape (.get_movie_info "tt1375666")
    (some [{ Title := "Inception" }]) [] rfl
  exact ⟨rfl, h.1, h.2⟩

/-- C6: the filter-movies query string is built from exactly the optional
fields present in the validated parameter bag and no others — a key appears
among the serialized pairs iff its field is present — and the bag
`Genre = action, MinYear = 2010, MinRating = 7` yields a query containing
only those three keys, in schema order. -/
theorem filter_query_exact_fields :
    (∀ (p : FilterParams) (k : String),
      k ∈ (filterParamsPairs p).map Prod.fst ↔
        (k = "MinRating" ∧ p.MinRating.isSome = true) ∨
        (k = "MaxRating" ∧ p.MaxRating.isSome = true) ∨
        (k = "MinYear" ∧ p.MinYear.isSome = true) ∨
        (k = "MaxYear" ∧ p.MaxYear.isSome = true) ∨
        (k = "MinRevenue" ∧ p.MinRevenue.isSome = true) ∨
        (k = "MaxRevenue" ∧ p.MaxRevenue.isSome = true) ∨
        (k = "Genre" ∧ p.Genre.isSome = true) ∨
        (k = "MinRuntime" ∧ p.MinRuntime.isSome = true) ∨
        (k = "MaxRuntime" ∧ p.MaxRuntime.isSome = true) ∨
        (k = "OriginalLanguage" ∧ p.OriginalLanguage.isSome = true) ∨
        (k = "SpokenLanguage" ∧ p.SpokenLanguage.isSome = true) ∨
        (k = "Limit" ∧ p.Limit.isSome = true)) ∧
    filterQuery { MinRating := some 7, MinYear := some 2010, Genre := some "action" }
      = "MinRating=7&MinYear=2010&Genre=action" ∧
    (filter_movies_generate
        { MinRating := some 7, MinYear := some 2010, Genre := some "action" }
        (some []) []).url
      = "https://moviedatabase8.p.rapidapi.com/Filter?MinRating=7&MinYear=2010&Genre=action" := by
  refine ⟨fun p k => ?_, by decide, by decide⟩
  simp only [filterParamsPairs, List.map_append, List.mem_append,
    mem_optNumPair_keys, mem_optStrPair_keys, or_assoc]

/-- C7: a successful movie-cast turn splits the delimited Actors string on
the comma-space separator into discrete names and renders them joined with
the same separator; on the concrete provider string the two names come out
distinct and rejoin to the original. -/
theorem cast_split_join (imdbId : String) (m : Movie) (rest : List Movie)
    (h : List Message) :
    (get_movie_cast_generate imdbId (some (m :: rest)) h).terminal
      = some (.castView m.Title (String.intercalate ", " (jsSplit ", " m.Actors))) ∧
    (get_movie_cast_generate imdbId (some (m :: rest)) h).history
      = h ++ [{ name := some .get_movie_cast, role := .assistant,
                content := "[Cast of " ++ m.Title ++ "]" }] ∧
    jsSplit ", " "Leonardo DiCaprio, Joseph Gordon-Levitt"
      = ["Leonardo DiCaprio", "Joseph Gordon-Levitt"] ∧
    String.intercalate ", " ["Leonardo DiCaprio", "Joseph Gordon-Levitt"]
      = "Leonardo DiCaprio, Joseph Gordon-Levitt" :=
  ⟨rfl, rfl, by decide, by decide⟩

/-- C8: every Lookup Executor is deterministic in its parameters and the
upstream response — the terminal renderable, the committed store delta and
the yielded sequence do not depend on the prior Conversation Store. -/
theorem executor_deterministic (call : ToolCall) (resp : Option (List Movie))
    (h1 h2 : List Message) :
    (runTool call resp h1).terminal = (runTool call resp h2).terminal ∧
    (runTool call resp h1).history.drop h1.length
      = (runTool call resp h2).history.drop h2.length ∧
    (runTool call resp h1).yields = (runTool call resp h2).yields := by
  cases call <;> rcases resp with _ | (_ | ⟨m0, rest⟩) <;>
    simp [runTool, get_movie_info_generate, get_movie_cast_generate,
      search_movie_title_generate, filter_movies_generate,
      List.drop_left, List.drop_length]

/-- C9: every successful filter-movies turn commits the constant summary
`[Movies matching criteria]`, independent of the parameter bag: two
invocations with different criteria leave identical history entries. -/
theorem filter_summary_constant (p q : FilterParams) (b : List Movie)
    (h : List Message) :
    (filter_movies_generate p (some b) h).history
      = h ++ [{ name := some .filter_movies, role := .assistant,
                content := "[Movies matching criteria]" }] ∧
    (filter_movies_generate q (some b) h).history
      = (filter_movies_generate p (some b) h).history :=
  ⟨rfl, rfl⟩

/-- C10: `sendMessage` validates nothing: for every input string, the empty
string included, it appends the user entry with exactly that content and
proceeds to the oracle call with the system instruction plus the full store. -/
theorem sendMessage_no_validation (msg : String) (d : Decision)
    (resp : Option (List Movie)) (h : List Message) :
    (sendMessage msg d resp h).request
      = systemMessage :: (h ++ [userMessage msg]) ∧
    (∃ rest, (sendMessage msg d resp h).history = h ++ userMessage msg :: rest) ∧
    (sendMessage "" d resp h).request
      = systemMessage :: (h ++ [userMessage ""]) := by
  refine ⟨?_, ?_, ?_⟩
  · cases d <;> rfl
  · cases d with
    | text t =>
      exact ⟨[{ role := .assistant, content := t }], by simp [sendMessage]⟩
    | tool call =>
      rcases runTool_history_shape call resp (h ++ [userMessage msg])
        with hsame | ⟨x, hx, _⟩
      · exact ⟨[], by simpa [sendMessage] using hsame⟩
      · exact ⟨[x], by simpa [sendMessage] using hx⟩
  · cases d <;> rfl

end MovieAI
